import Mathlib

/-!
Verification of the command-line argument parsing engine of the `recoder`
repository (`src/app_arguments.rs`, entry point `src/main.rs`).

The Rust code is shallowly embedded: the process argument vector becomes an
explicit `List String` parameter (index 0 is the program name, exactly as in
`std::env::args()`), the `while` loop of `get_app_arguments` becomes the
recursive function `scanLoop` on the cursor `i`, and the code after the loop
(the required-argument re-scan and result construction) becomes `finishScan`.
Rust's `Option<String>` is `Option String`, `Vec<String>` is `List String`.
-/

/-- Embedding of Rust's `str::starts_with` on full strings: `starts_with s p`
is true when `p` is a prefix of `s`. -/
def starts_with (s p : String) : Bool :=
  List.isPrefixOf p.data s.data

/-- `AppArguments` struct (app_arguments.rs lines 4-9). -/
structure AppArguments where
  templates_path : Option String
  definitions_path : Option String
  results_root_path : Option String
deriving Repr, DecidableEq

/-- Rust `#[derive(Default)]` for `AppArguments`: every field `None`. -/
def AppArguments.default : AppArguments :=
  { templates_path := none, definitions_path := none, results_root_path := none }

/-- `ArgumentsParsingResult` struct (app_arguments.rs lines 11-15). -/
structure ArgumentsParsingResult where
  app_arguments : AppArguments
  message : Option String
  is_error : Bool
deriving Repr, DecidableEq

/-- `ArgumentDefinition` struct (app_arguments.rs lines 17-24). The Rust field
`syntax` is named `stx` here because `syntax` is a Lean keyword. -/
structure ArgumentDefinition where
  name : String
  stx : String
  shorthand : Option String
  description : String
  number_of_args : Nat
  is_required : Bool
deriving Repr, DecidableEq

/-- The `SUPPORTED_ARGS` catalog (app_arguments.rs lines 26-67), in source
order. -/
def SUPPORTED_ARGS : List ArgumentDefinition :=
  [ { name := "--help", stx := "--help", shorthand := some "-h",
      description := "Show this help", number_of_args := 0, is_required := false },
    { name := "--version", stx := "--version", shorthand := some "-v",
      description := "Show the application version", number_of_args := 0, is_required := false },
    { name := "--templates-path", stx := "--templates-path <path>", shorthand := some "-t",
      description := "Set path to the templates directory", number_of_args := 1, is_required := true },
    { name := "--definitions-path", stx := "--definitions-path <path>", shorthand := some "-d",
      description := "Set path to the directory with definitions", number_of_args := 1, is_required := true },
    { name := "--results-root-path", stx := "--results-root-path <path>", shorthand := some "-r",
      description := "Set root directory for results, default is the current directory",
      number_of_args := 1, is_required := false } ]

/-- Constructor `ArgumentsParsingResult::parsed` (app_arguments.rs lines 70-76), capitalized to avoid clashing with field names; named after the spec outcome `Parsed`. -/
def ArgumentsParsingResult.Parsed (app_arguments : AppArguments) : ArgumentsParsingResult :=
  { app_arguments := app_arguments, message := none, is_error := false }

/-- Constructor `ArgumentsParsingResult::error` (app_arguments.rs lines 78-84):
the configuration carried alongside an error is always the default (all-`None`)
one. -/
def ArgumentsParsingResult.Error (message : String) : ArgumentsParsingResult :=
  { app_arguments := AppArguments.default, message := some message, is_error := true }

/-- Constructor `ArgumentsParsingResult::message` (app_arguments.rs lines 86-92). -/
def ArgumentsParsingResult.Message (message : String) : ArgumentsParsingResult :=
  { app_arguments := AppArguments.default, message := some message, is_error := false }

/-- Modelled from the spec: the application version string baked in by
`env!("CARGO_PKG_VERSION")`; the package manifest is not under `src/`, so the
concrete value is opaque to this development and no claim depends on it. -/
def CARGO_PKG_VERSION : String := "0.1.0"

/-- `get_help_text` (app_arguments.rs lines 178-196): header line, one line per
catalog entry (`syntax`, spaces up to the longest syntax length plus one,
`description`), a blank line, then the usage example line. The inner
space-pushing loop is rendered as appending `max_len - len + 1` spaces. -/
def get_help_text : String :=
  let help_text := "Supported arguments:\n"
  let max_stx_len := SUPPORTED_ARGS.foldl (fun m arg => max m arg.stx.length) 0
  let help_text := SUPPORTED_ARGS.foldl
    (fun text arg =>
      text ++ arg.stx
        ++ String.mk (List.replicate (max_stx_len - arg.stx.length + 1) ' ')
        ++ arg.description ++ "\n")
    help_text
  help_text ++ "\n"
    ++ "Example: recoder --config-path C:\\config.json --logs-path C:\\logs --work-path C:\\work --env VAR1 value1 --env VAR2 value2"

/-- Flag lookup of the scan (app_arguments.rs lines 106-116): a token starting
with `--` is looked up by exact long name; otherwise a token starting with `-`
is looked up by exact shorthand; any other token matches nothing. -/
def findArg (arg : String) : Option ArgumentDefinition :=
  if starts_with arg "--" then
    SUPPORTED_ARGS.find? (fun supported_arg => supported_arg.name == arg)
  else if starts_with arg "-" then
    SUPPORTED_ARGS.find? (fun supported_arg => supported_arg.shorthand == some arg)
  else
    none

/-- The required-argument re-scan (app_arguments.rs lines 148-162): for every
catalog entry marked required, scan the whole raw token vector (program name
included) for a token equal to its name or its shorthand (`unwrap_or("")`);
collect the names of the entries never found, in catalog order. -/
def missing_args (args : List String) : List String :=
  SUPPORTED_ARGS.filterMap (fun supported_arg =>
    if supported_arg.is_required then
      if args.any (fun arg => arg == supported_arg.name
          || arg == supported_arg.shorthand.getD "") then
        none
      else
        some supported_arg.name
    else
      none)

/-- Code after the scan loop (app_arguments.rs lines 148-175): the
missing-required check, then construction of the parsed result. -/
def finishScan (args : List String) (templates_path definitions_path results_root_path :
    Option String) : ArgumentsParsingResult :=
  let m := missing_args args
  if m.length > 0 then
    ArgumentsParsingResult.Error
      ("Missing required arguments: " ++ String.intercalate ", " m
        ++ "\nUse --help to see the list of supported arguments")
  else
    ArgumentsParsingResult.Parsed
      { templates_path := templates_path, definitions_path := definitions_path,
        results_root_path := results_root_path }

/-- The scan loop of `get_app_arguments` (app_arguments.rs lines 102-146) with
cursor `i` and the three accumulator variables. The Rust `else if` chain over
the value-taking flags assigns at most one of the three variables (the string
equalities are mutually exclusive), so it is rendered as three guarded updates
before the single loop iteration. `args[i + 1]` is rendered `args.getD (i+1) ""`;
the arity guard has already ensured the index is in bounds, so the default is
never used. -/
def scanLoop (args : List String) (i : Nat)
    (templates_path definitions_path results_root_path : Option String) :
    ArgumentsParsingResult :=
  if h : i < args.length then
    let arg := args.get ⟨i, h⟩
    match findArg arg with
    | none =>
      ArgumentsParsingResult.Error
        ("Unsupported argument: " ++ arg
          ++ "\nUse --help to see the list of supported arguments")
    | some found_arg =>
      if found_arg.number_of_args > 0 && args.length ≤ i + found_arg.number_of_args then
        ArgumentsParsingResult.Error
          ("Not enough arguments for " ++ arg
            ++ "\nUse --help to see the list of supported arguments")
      else if arg == "--help" || arg == "-h" then
        ArgumentsParsingResult.Message get_help_text
      else if arg == "--version" || arg == "-v" then
        ArgumentsParsingResult.Message CARGO_PKG_VERSION
      else
        let templates_path :=
          if arg == "--templates-path" || arg == "-t" then some (args.getD (i + 1) "")
          else templates_path
        let definitions_path :=
          if arg == "--definitions-path" || arg == "-d" then some (args.getD (i + 1) "")
          else definitions_path
        let results_root_path :=
          if arg == "--results-root-path" || arg == "-r" then some (args.getD (i + 1) "")
          else results_root_path
        scanLoop args (i + 1 + found_arg.number_of_args)
          templates_path definitions_path results_root_path
  else
    finishScan args templates_path definitions_path results_root_path
termination_by args.length - i
decreasing_by omega

/-- `get_app_arguments` (app_arguments.rs lines 95-176), with the ambient
`std::env::args()` vector made an explicit parameter: scan from index 1 with
all three configuration variables initially `None`. -/
def get_app_arguments (args : List String) : ArgumentsParsingResult :=
  scanLoop args 1 none none none

/-- Modelled from the spec: the required-argument check reformulated to use the
scan pass's own bookkeeping (`seen` holds the names of the definitions actually
matched as flags in step 2) instead of re-scanning the raw input. Used as the
second side of the refinement-equivalence comparison. -/
def missing_args_bk (seen : List String) : List String :=
  SUPPORTED_ARGS.filterMap (fun supported_arg =>
    if supported_arg.is_required then
      if seen.contains supported_arg.name then
        none
      else
        some supported_arg.name
    else
      none)

/-- Modelled from the spec: the post-loop phase of the bookkeeping formulation:
identical to `finishScan` except that the missing-required check consults the
`seen` bookkeeping rather than the raw input. -/
def finishScanBk (templates_path definitions_path results_root_path : Option String)
    (seen : List String) : ArgumentsParsingResult :=
  let m := missing_args_bk seen
  if m.length > 0 then
    ArgumentsParsingResult.Error
      ("Missing required arguments: " ++ String.intercalate ", " m
        ++ "\nUse --help to see the list of supported arguments")
  else
    ArgumentsParsingResult.Parsed
      { templates_path := templates_path, definitions_path := definitions_path,
        results_root_path := results_root_path }

/-- Modelled from the spec: the scan loop of the bookkeeping formulation:
identical to `scanLoop` except that it records the name of every definition
matched as a flag in `seen` and hands `seen` to the final check. -/
def scanLoopBk (args : List String) (i : Nat)
    (templates_path definitions_path results_root_path : Option String)
    (seen : List String) : ArgumentsParsingResult :=
  if h : i < args.length then
    let arg := args.get ⟨i, h⟩
    match findArg arg with
    | none =>
      ArgumentsParsingResult.Error
        ("Unsupported argument: " ++ arg
          ++ "\nUse --help to see the list of supported arguments")
    | some found_arg =>
      if found_arg.number_of_args > 0 && args.length ≤ i + found_arg.number_of_args then
        ArgumentsParsingResult.Error
          ("Not enough arguments for " ++ arg
            ++ "\nUse --help to see the list of supported arguments")
      else if arg == "--help" || arg == "-h" then
        ArgumentsParsingResult.Message get_help_text
      else if arg == "--version" || arg == "-v" then
        ArgumentsParsingResult.Message CARGO_PKG_VERSION
      else
        let templates_path :=
          if arg == "--templates-path" || arg == "-t" then some (args.getD (i + 1) "")
          else templates_path
        let definitions_path :=
          if arg == "--definitions-path" || arg == "-d" then some (args.getD (i + 1) "")
          else definitions_path
        let results_root_path :=
          if arg == "--results-root-path" || arg == "-r" then some (args.getD (i + 1) "")
          else results_root_path
        scanLoopBk args (i + 1 + found_arg.number_of_args)
          templates_path definitions_path results_root_path
          (found_arg.name :: seen)
  else
    finishScanBk templates_path definitions_path results_root_path seen
termination_by args.length - i
decreasing_by omega

/-- Modelled from the spec: entry point of the bookkeeping formulation, with an
initially empty `seen` record. -/
def get_app_arguments_bk (args : List String) : ArgumentsParsingResult :=
  scanLoopBk args 1 none none none []

/-- Property-side restatement used only in theorem statements (from the words of
the missing-required claims): the long names of every required catalog entry
whose name or shorthand occurs nowhere in the raw input, kept in catalog
order. -/
def requiredNotSupplied (args : List String) : List String :=
  (SUPPORTED_ARGS.filter (fun d =>
    d.is_required && !(args.any (fun a => a == d.name || a == d.shorthand.getD "")))).map
    (fun d => d.name)

/-- Property-side restatement used only in theorem statements: the length of the
longest syntax string in the catalog. -/
def longest_stx_len : Nat :=
  SUPPORTED_ARGS.foldl (fun m arg => max m arg.stx.length) 0

/-- Property-side restatement used only in theorem statements (from the words of
the help-text claim): the padding that aligns a definition's syntax column to
the longest syntax string plus one space. -/
def help_pad (d : ArgumentDefinition) : String :=
  String.mk (List.replicate (longest_stx_len + 1 - d.stx.length) ' ')

/-- Property-side restatement used only in theorem statements: one rendered help
line, `syntax`, then padding, then `description`, then a newline. -/
def help_line (d : ArgumentDefinition) : String :=
  d.stx ++ help_pad d ++ d.description ++ "\n"

/-- Exiting the `while` loop: once the cursor has reached the end of the token
vector, the scan hands over to the post-loop phase. -/
theorem scanLoop_base (args : List String) (i : Nat) (tp dp rp : Option String)
    (h : args.length ≤ i) : scanLoop args i tp dp rp = finishScan args tp dp rp := by
  rw [scanLoop]
  simp [Nat.not_lt.mpr h]

/-- Loop step: a token matching no catalog entry ends the scan with the
unsupported-argument error. -/
theorem scanLoop_unsupported (args : List String) (i : Nat) (tp dp rp : Option String)
    (h : i < args.length) (hf : findArg (args.get ⟨i, h⟩) = none) :
    scanLoop args i tp dp rp = ArgumentsParsingResult.Error
      ("Unsupported argument: " ++ args.get ⟨i, h⟩
        ++ "\nUse --help to see the list of supported arguments") := by
  rw [scanLoop, dif_pos h]
  simp only [hf]

/-- Loop step: a matched definition whose arity overruns the remaining tokens
ends the scan with the not-enough-arguments error. -/
theorem scanLoop_not_enough (args : List String) (i : Nat) (tp dp rp : Option String)
    (found_arg : ArgumentDefinition)
    (h : i < args.length) (hf : findArg (args.get ⟨i, h⟩) = some found_arg)
    (hn : 0 < found_arg.number_of_args ∧ args.length ≤ i + found_arg.number_of_args) :
    scanLoop args i tp dp rp = ArgumentsParsingResult.Error
      ("Not enough arguments for " ++ args.get ⟨i, h⟩
        ++ "\nUse --help to see the list of supported arguments") := by
  rw [scanLoop, dif_pos h]
  simp only [hf, Bool.and_eq_true, Bool.or_eq_true, decide_eq_true_eq, beq_iff_eq, gt_iff_lt]
  rw [if_pos hn]

/-- Loop step: the help token returns the help message at once. -/
theorem scanLoop_help (args : List String) (i : Nat) (tp dp rp : Option String)
    (h : i < args.length)
    (hh : args.get ⟨i, h⟩ = "--help" ∨ args.get ⟨i, h⟩ = "-h") :
    scanLoop args i tp dp rp = ArgumentsParsingResult.Message get_help_text := by
  rw [scanLoop, dif_pos h]
  rcases hh with hh | hh <;> rw [hh] <;> simp +decide [findArg, SUPPORTED_ARGS]

/-- Loop step: the version token returns the version message at once. -/
theorem scanLoop_version (args : List String) (i : Nat) (tp dp rp : Option String)
    (h : i < args.length)
    (hv : args.get ⟨i, h⟩ = "--version" ∨ args.get ⟨i, h⟩ = "-v") :
    scanLoop args i tp dp rp = ArgumentsParsingResult.Message CARGO_PKG_VERSION := by
  rw [scanLoop, dif_pos h]
  rcases hv with hv | hv <;> rw [hv] <;> simp +decide [findArg, SUPPORTED_ARGS]

/-- Loop step: a matched value-taking definition records its value (the token
after the cursor) in the corresponding field and the loop continues past the
consumed tokens. -/
theorem scanLoop_step (args : List String) (i : Nat) (tp dp rp : Option String)
    (found_arg : ArgumentDefinition)
    (h : i < args.length) (hf : findArg (args.get ⟨i, h⟩) = some found_arg)
    (hn : ¬(0 < found_arg.number_of_args ∧ args.length ≤ i + found_arg.number_of_args))
    (hh : ¬(args.get ⟨i, h⟩ = "--help" ∨ args.get ⟨i, h⟩ = "-h"))
    (hv : ¬(args.get ⟨i, h⟩ = "--version" ∨ args.get ⟨i, h⟩ = "-v")) :
    scanLoop args i tp dp rp = scanLoop args (i + 1 + found_arg.number_of_args)
      (if args.get ⟨i, h⟩ = "--templates-path" ∨ args.get ⟨i, h⟩ = "-t" then
        some (args.getD (i + 1) "") else tp)
      (if args.get ⟨i, h⟩ = "--definitions-path" ∨ args.get ⟨i, h⟩ = "-d" then
        some (args.getD (i + 1) "") else dp)
      (if args.get ⟨i, h⟩ = "--results-root-path" ∨ args.get ⟨i, h⟩ = "-r" then
        some (args.getD (i + 1) "") else rp) := by
  rw [scanLoop, dif_pos h]
  simp only [hf, Bool.and_eq_true, Bool.or_eq_true, decide_eq_true_eq, beq_iff_eq, gt_iff_lt]
  rw [if_neg hn, if_neg hh, if_neg hv]

/-- Concrete shape of the re-scan check over the fixed catalog: only the two
required entries can contribute to the missing list. -/
theorem missing_args_unfold (args : List String) :
    missing_args args =
      (if args.any (fun arg => arg == "--templates-path" || arg == "-t") then []
        else ["--templates-path"]) ++
      (if args.any (fun arg => arg == "--definitions-path" || arg == "-d") then []
        else ["--definitions-path"]) := by
  cases hT : args.any (fun arg => arg == "--templates-path" || arg == "-t")
  <;> cases hD : args.any (fun arg => arg == "--definitions-path" || arg == "-d")
  <;> simp only [missing_args, SUPPORTED_ARGS, List.filterMap_cons, List.filterMap_nil,
        Option.getD_some, reduceIte, hT, hD]
  <;> rfl

/-- Concrete shape of the bookkeeping check over the fixed catalog. -/
theorem missing_args_bk_unfold (seen : List String) :
    missing_args_bk seen =
      (if seen.contains "--templates-path" then [] else ["--templates-path"]) ++
      (if seen.contains "--definitions-path" then [] else ["--definitions-path"]) := by
  cases hT : seen.contains "--templates-path"
  <;> cases hD : seen.contains "--definitions-path"
  <;> simp only [missing_args_bk, SUPPORTED_ARGS, List.filterMap_cons, List.filterMap_nil,
        reduceIte, hT, hD]
  <;> rfl

/-- The re-scan check passes exactly when each required entry's name or
shorthand occurs somewhere in the raw token vector. -/
theorem missing_args_nil_iff (args : List String) :
    missing_args args = [] ↔
      args.any (fun arg => arg == "--templates-path" || arg == "-t") = true ∧
        args.any (fun arg => arg == "--definitions-path" || arg == "-d") = true := by
  rw [missing_args_unfold]
  cases hT : args.any (fun arg => arg == "--templates-path" || arg == "-t")
  <;> cases hD : args.any (fun arg => arg == "--definitions-path" || arg == "-d")
  <;> simp

/-- The bookkeeping check passes exactly when both required names were
recorded as matched flags. -/
theorem missing_args_bk_nil_iff (seen : List String) :
    missing_args_bk seen = [] ↔
      seen.contains "--templates-path" = true ∧ seen.contains "--definitions-path" = true := by
  rw [missing_args_bk_unfold]
  cases hT : seen.contains "--templates-path"
  <;> cases hD : seen.contains "--definitions-path"
  <;> simp

/-- The post-loop phase returns the parsed outcome exactly when the re-scan
check passes, and then the configuration is the three accumulators. -/
theorem finishScan_parsed_iff (args : List String) (tp dp rp : Option String)
    (a : AppArguments) :
    finishScan args tp dp rp = ArgumentsParsingResult.Parsed a ↔
      missing_args args = [] ∧
        a = { templates_path := tp, definitions_path := dp, results_root_path := rp } := by
  simp only [finishScan]
  split
  · rename_i hlen
    constructor
    · intro h
      exact absurd (congrArg ArgumentsParsingResult.message h)
        (by simp [ArgumentsParsingResult.Error, ArgumentsParsingResult.Parsed])
    · rintro ⟨hm, -⟩
      rw [hm] at hlen
      simp at hlen
  · rename_i hlen
    have hm : missing_args args = [] := by
      rcases h : missing_args args with _ | ⟨x, xs⟩
      · rfl
      · rw [h] at hlen
        simp at hlen
    simp only [ArgumentsParsingResult.Parsed, ArgumentsParsingResult.mk.injEq]
    constructor
    · rintro ⟨h1, -, -⟩
      exact ⟨hm, h1.symm⟩
    · rintro ⟨-, ha⟩
      simp [ha]

/-- The bookkeeping post-loop phase returns the parsed outcome exactly when the
bookkeeping check passes. -/
theorem finishScanBk_parsed_iff (tp dp rp : Option String) (seen : List String)
    (a : AppArguments) :
    finishScanBk tp dp rp seen = ArgumentsParsingResult.Parsed a ↔
      missing_args_bk seen = [] ∧
        a = { templates_path := tp, definitions_path := dp, results_root_path := rp } := by
  simp only [finishScanBk]
  split
  · rename_i hlen
    constructor
    · intro h
      exact absurd (congrArg ArgumentsParsingResult.message h)
        (by simp [ArgumentsParsingResult.Error, ArgumentsParsingResult.Parsed])
    · rintro ⟨hm, -⟩
      rw [hm] at hlen
      simp at hlen
  · rename_i hlen
    have hm : missing_args_bk seen = [] := by
      rcases h : missing_args_bk seen with _ | ⟨x, xs⟩
      · rfl
      · rw [h] at hlen
        simp at hlen
    simp only [ArgumentsParsingResult.Parsed, ArgumentsParsingResult.mk.injEq]
    constructor
    · rintro ⟨h1, -, -⟩
      exact ⟨hm, h1.symm⟩
    · rintro ⟨-, ha⟩
      simp [ha]

/-- An error outcome is never a parsed outcome (the `message` fields differ). -/
theorem Error_ne_Parsed (m : String) (a : AppArguments) :
    ArgumentsParsingResult.Error m ≠ ArgumentsParsingResult.Parsed a := by
  simp [ArgumentsParsingResult.Error, ArgumentsParsingResult.Parsed]

/-- A message outcome is never a parsed outcome (the `message` fields differ). -/
theorem Message_ne_Parsed (m : String) (a : AppArguments) :
    ArgumentsParsingResult.Message m ≠ ArgumentsParsingResult.Parsed a := by
  simp [ArgumentsParsingResult.Message, ArgumentsParsingResult.Parsed]

/-- Whenever the post-loop phase reports an error, the configuration it carries
is the all-`None` default. -/
theorem finishScan_error_default (args : List String) (tp dp rp : Option String) :
    (finishScan args tp dp rp).is_error = true →
    (finishScan args tp dp rp).app_arguments = AppArguments.default := by
  simp only [finishScan]
  split
  · intro
    rfl
  · intro herr
    simp [ArgumentsParsingResult.Parsed] at herr

/-- A token that the lookup matched to a required definition is itself equal to
that definition's name or shorthand. -/
theorem findArg_supplies (x : String) (found : ArgumentDefinition)
    (hf : findArg x = some found) :
    (found.name = "--templates-path" → (x == "--templates-path" || x == "-t") = true) ∧
      (found.name = "--definitions-path" → (x == "--definitions-path" || x == "-d") = true) := by
  unfold findArg at hf
  split at hf
  · have hpred := List.find?_some hf
    simp only [beq_iff_eq] at hpred
    constructor
    · intro h1
      simp [← hpred, h1]
    · intro h1
      simp [← hpred, h1]
  · split at hf
    · have hpred := List.find?_some hf
      simp only [beq_iff_eq] at hpred
      have hmem : found ∈ SUPPORTED_ARGS := List.mem_of_find?_eq_some hf
      simp only [SUPPORTED_ARGS, List.mem_cons, List.not_mem_nil, or_false] at hmem
      rcases hmem with h | h | h | h | h
      all_goals subst h
      all_goals simp_all
    · exact absurd hf (by simp)

/-- Bookkeeping-formulation counterpart of `scanLoop_base`. -/
theorem scanLoopBk_base (args : List String) (i : Nat) (tp dp rp : Option String)
    (seen : List String) (h : args.length ≤ i) :
    scanLoopBk args i tp dp rp seen = finishScanBk tp dp rp seen := by
  rw [scanLoopBk]
  simp [Nat.not_lt.mpr h]

/-- Bookkeeping-formulation counterpart of `scanLoop_unsupported`. -/
theorem scanLoopBk_unsupported (args : List String) (i : Nat) (tp dp rp : Option String)
    (seen : List String) (h : i < args.length) (hf : findArg (args.get ⟨i, h⟩) = none) :
    scanLoopBk args i tp dp rp seen = ArgumentsParsingResult.Error
      ("Unsupported argument: " ++ args.get ⟨i, h⟩
        ++ "\nUse --help to see the list of supported arguments") := by
  rw [scanLoopBk, dif_pos h]
  simp only [hf]

/-- Bookkeeping-formulation counterpart of `scanLoop_not_enough`. -/
theorem scanLoopBk_not_enough (args : List String) (i : Nat) (tp dp rp : Option String)
    (seen : List String) (found_arg : ArgumentDefinition)
    (h : i < args.length) (hf : findArg (args.get ⟨i, h⟩) = some found_arg)
    (hn : 0 < found_arg.number_of_args ∧ args.length ≤ i + found_arg.number_of_args) :
    scanLoopBk args i tp dp rp seen = ArgumentsParsingResult.Error
      ("Not enough arguments for " ++ args.get ⟨i, h⟩
        ++ "\nUse --help to see the list of supported arguments") := by
  rw [scanLoopBk, dif_pos h]
  simp only [hf, Bool.and_eq_true, Bool.or_eq_true, decide_eq_true_eq, beq_iff_eq, gt_iff_lt]
  rw [if_pos hn]

/-- Bookkeeping-formulation counterpart of `scanLoop_help`. -/
theorem scanLoopBk_help (args : List String) (i : Nat) (tp dp rp : Option String)
    (seen : List String) (h : i < args.length)
    (hh : args.get ⟨i, h⟩ = "--help" ∨ args.get ⟨i, h⟩ = "-h") :
    scanLoopBk args i tp dp rp seen = ArgumentsParsingResult.Message get_help_text := by
  rw [scanLoopBk, dif_pos h]
  rcases hh with hh | hh <;> rw [hh] <;> simp +decide [findArg, SUPPORTED_ARGS]

/-- Bookkeeping-formulation counterpart of `scanLoop_version`. -/
theorem scanLoopBk_version (args : List String) (i : Nat) (tp dp rp : Option String)
    (seen : List String) (h : i < args.length)
    (hv : args.get ⟨i, h⟩ = "--version" ∨ args.get ⟨i, h⟩ = "-v") :
    scanLoopBk args i tp dp rp seen = ArgumentsParsingResult.Message CARGO_PKG_VERSION := by
  rw [scanLoopBk, dif_pos h]
  rcases hv with hv | hv <;> rw [hv] <;> simp +decide [findArg, SUPPORTED_ARGS]

/-- Bookkeeping-formulation counterpart of `scanLoop_step`: additionally records
the matched definition's name. -/
theorem scanLoopBk_step (args : List String) (i : Nat) (tp dp rp : Option String)
    (seen : List String) (found_arg : ArgumentDefinition)
    (h : i < args.length) (hf : findArg (args.get ⟨i, h⟩) = some found_arg)
    (hn : ¬(0 < found_arg.number_of_args ∧ args.length ≤ i + found_arg.number_of_args))
    (hh : ¬(args.get ⟨i, h⟩ = "--help" ∨ args.get ⟨i, h⟩ = "-h"))
    (hv : ¬(args.get ⟨i, h⟩ = "--version" ∨ args.get ⟨i, h⟩ = "-v")) :
    scanLoopBk args i tp dp rp seen = scanLoopBk args (i + 1 + found_arg.number_of_args)
      (if args.get ⟨i, h⟩ = "--templates-path" ∨ args.get ⟨i, h⟩ = "-t" then
        some (args.getD (i + 1) "") else tp)
      (if args.get ⟨i, h⟩ = "--definitions-path" ∨ args.get ⟨i, h⟩ = "-d" then
        some (args.getD (i + 1) "") else dp)
      (if args.get ⟨i, h⟩ = "--results-root-path" ∨ args.get ⟨i, h⟩ = "-r" then
        some (args.getD (i + 1) "") else rp)
      (found_arg.name :: seen) := by
  rw [scanLoopBk, dif_pos h]
  simp only [hf, Bool.and_eq_true, Bool.or_eq_true, decide_eq_true_eq, beq_iff_eq, gt_iff_lt]
  rw [if_neg hn, if_neg hh, if_neg hv]

/-- Every error result that the scan loop can produce, from any cursor position
and any accumulator state, carries the default configuration (`k` bounds the
remaining loop iterations). -/
theorem scanLoop_error_default (k : Nat) : ∀ (args : List String) (i : Nat)
    (tp dp rp : Option String), args.length - i ≤ k →
    (scanLoop args i tp dp rp).is_error = true →
    (scanLoop args i tp dp rp).app_arguments = AppArguments.default := by
  induction k with
  | zero =>
    intro args i tp dp rp hk herr
    rw [scanLoop_base args i tp dp rp (by omega)] at herr ⊢
    exact finishScan_error_default args tp dp rp herr
  | succ k ih =>
    intro args i tp dp rp hk herr
    by_cases h : i < args.length
    · cases hfa : findArg (args.get ⟨i, h⟩) with
      | none =>
        rw [scanLoop_unsupported args i tp dp rp h hfa]
        rfl
      | some found_arg =>
        by_cases hn : 0 < found_arg.number_of_args ∧
            args.length ≤ i + found_arg.number_of_args
        · rw [scanLoop_not_enough args i tp dp rp found_arg h hfa hn]
          rfl
        · by_cases hh : args.get ⟨i, h⟩ = "--help" ∨ args.get ⟨i, h⟩ = "-h"
          · rw [scanLoop_help args i tp dp rp h hh] at herr
            simp [ArgumentsParsingResult.Message] at herr
          · by_cases hv : args.get ⟨i, h⟩ = "--version" ∨ args.get ⟨i, h⟩ = "-v"
            · rw [scanLoop_version args i tp dp rp h hv] at herr
              simp [ArgumentsParsingResult.Message] at herr
            · rw [scanLoop_step args i tp dp rp found_arg h hfa hn hh hv] at herr ⊢
              exact ih args (i + 1 + found_arg.number_of_args) _ _ _ (by omega) herr
    · rw [scanLoop_base args i tp dp rp (by omega)] at herr ⊢
      exact finishScan_error_default args tp dp rp herr

/-- A parsed result can only be produced through the post-loop phase, so the
re-scan missing-required check must have passed. -/
theorem scanLoop_parsed_missing (k : Nat) : ∀ (args : List String) (i : Nat)
    (tp dp rp : Option String) (a : AppArguments), args.length - i ≤ k →
    scanLoop args i tp dp rp = ArgumentsParsingResult.Parsed a →
    missing_args args = [] := by
  induction k with
  | zero =>
    intro args i tp dp rp a hk hp
    rw [scanLoop_base args i tp dp rp (by omega)] at hp
    exact ((finishScan_parsed_iff args tp dp rp a).mp hp).1
  | succ k ih =>
    intro args i tp dp rp a hk hp
    by_cases h : i < args.length
    · cases hfa : findArg (args.get ⟨i, h⟩) with
      | none =>
        rw [scanLoop_unsupported args i tp dp rp h hfa] at hp
        exact absurd hp (Error_ne_Parsed _ _)
      | some found_arg =>
        by_cases hn : 0 < found_arg.number_of_args ∧
            args.length ≤ i + found_arg.number_of_args
        · rw [scanLoop_not_enough args i tp dp rp found_arg h hfa hn] at hp
          exact absurd hp (Error_ne_Parsed _ _)
        · by_cases hh : args.get ⟨i, h⟩ = "--help" ∨ args.get ⟨i, h⟩ = "-h"
          · rw [scanLoop_help args i tp dp rp h hh] at hp
            exact absurd hp (Message_ne_Parsed _ _)
          · by_cases hv : args.get ⟨i, h⟩ = "--version" ∨ args.get ⟨i, h⟩ = "-v"
            · rw [scanLoop_version args i tp dp rp h hv] at hp
              exact absurd hp (Message_ne_Parsed _ _)
            · rw [scanLoop_step args i tp dp rp found_arg h hfa hn hh hv] at hp
              exact ih args (i + 1 + found_arg.number_of_args) _ _ _ a (by omega) hp
    · rw [scanLoop_base args i tp dp rp (by omega)] at hp
      exact ((finishScan_parsed_iff args tp dp rp a).mp hp).1

/-- Refinement direction of the two required-argument check formulations: a run
of the bookkeeping formulation that ends in the parsed outcome is reproduced
exactly by the re-scan formulation, provided every name recorded in `seen` is
backed by a raw token (true of all reachable states). -/
theorem scanLoopBk_refines (k : Nat) : ∀ (args : List String) (i : Nat)
    (tp dp rp : Option String) (seen : List String) (a : AppArguments),
    args.length - i ≤ k →
    (seen.contains "--templates-path" = true →
      args.any (fun arg => arg == "--templates-path" || arg == "-t") = true) →
    (seen.contains "--definitions-path" = true →
      args.any (fun arg => arg == "--definitions-path" || arg == "-d") = true) →
    scanLoopBk args i tp dp rp seen = ArgumentsParsingResult.Parsed a →
    scanLoop args i tp dp rp = ArgumentsParsingResult.Parsed a := by
  induction k with
  | zero =>
    intro args i tp dp rp seen a hk hiT hiD hp
    rw [scanLoopBk_base args i tp dp rp seen (by omega)] at hp
    obtain ⟨hm, ha⟩ := (finishScanBk_parsed_iff tp dp rp seen a).mp hp
    obtain ⟨hT, hD⟩ := (missing_args_bk_nil_iff seen).mp hm
    rw [scanLoop_base args i tp dp rp (by omega)]
    exact (finishScan_parsed_iff args tp dp rp a).mpr
      ⟨(missing_args_nil_iff args).mpr ⟨hiT hT, hiD hD⟩, ha⟩
  | succ k ih =>
    intro args i tp dp rp seen a hk hiT hiD hp
    by_cases h : i < args.length
    · cases hfa : findArg (args.get ⟨i, h⟩) with
      | none =>
        rw [scanLoopBk_unsupported args i tp dp rp seen h hfa] at hp
        exact absurd hp (Error_ne_Parsed _ _)
      | some found_arg =>
        by_cases hn : 0 < found_arg.number_of_args ∧
            args.length ≤ i + found_arg.number_of_args
        · rw [scanLoopBk_not_enough args i tp dp rp seen found_arg h hfa hn] at hp
          exact absurd hp (Error_ne_Parsed _ _)
        · by_cases hh : args.get ⟨i, h⟩ = "--help" ∨ args.get ⟨i, h⟩ = "-h"
          · rw [scanLoopBk_help args i tp dp rp seen h hh] at hp
            exact absurd hp (Message_ne_Parsed _ _)
          · by_cases hv : args.get ⟨i, h⟩ = "--version" ∨ args.get ⟨i, h⟩ = "-v"
            · rw [scanLoopBk_version args i tp dp rp seen h hv] at hp
              exact absurd hp (Message_ne_Parsed _ _)
            · rw [scanLoopBk_step args i tp dp rp seen found_arg h hfa hn hh hv] at hp
              rw [scanLoop_step args i tp dp rp found_arg h hfa hn hh hv]
              refine ih args (i + 1 + found_arg.number_of_args) _ _ _
                (found_arg.name :: seen) a (by omega) ?_ ?_ hp
              · intro hc
                simp only [List.contains_cons, Bool.or_eq_true, beq_iff_eq] at hc
                rcases hc with hc | hc
                · exact List.any_eq_true.mpr
                    ⟨args.get ⟨i, h⟩, List.get_mem args i h,
                      (findArg_supplies _ _ hfa).1 hc.symm⟩
                · exact hiT hc
              · intro hc
                simp only [List.contains_cons, Bool.or_eq_true, beq_iff_eq] at hc
                rcases hc with hc | hc
                · exact List.any_eq_true.mpr
                    ⟨args.get ⟨i, h⟩, List.get_mem args i h,
                      (findArg_supplies _ _ hfa).2 hc.symm⟩
                · exact hiD hc
    · rw [scanLoopBk_base args i tp dp rp seen (by omega)] at hp
      obtain ⟨hm, ha⟩ := (finishScanBk_parsed_iff tp dp rp seen a).mp hp
      obtain ⟨hT, hD⟩ := (missing_args_bk_nil_iff seen).mp hm
      rw [scanLoop_base args i tp dp rp (by omega)]
      exact (finishScan_parsed_iff args tp dp rp a).mpr
        ⟨(missing_args_nil_iff args).mpr ⟨hiT hT, hiD hD⟩, ha⟩

/-- Evaluation: both required flags supplied with values parses successfully. -/
theorem eval_full_ok : get_app_arguments ["prog", "-t", "T", "-d", "D"] =
    ArgumentsParsingResult.Parsed
      { templates_path := some "T", definitions_path := some "D", results_root_path := none } := by
  rw [get_app_arguments]
  rw [scanLoop]; simp +decide [findArg, SUPPORTED_ARGS]
  rw [scanLoop]; simp +decide [findArg, SUPPORTED_ARGS]
  rw [scanLoop]; simp +decide [finishScan, missing_args, SUPPORTED_ARGS,
    ArgumentsParsingResult.Parsed]

/-- Evaluation: only the templates flag supplied reports the missing
definitions flag. -/
theorem eval_only_templates : get_app_arguments ["prog", "-t", "T"] =
    ArgumentsParsingResult.Error
      "Missing required arguments: --definitions-path\nUse --help to see the list of supported arguments" := by
  rw [get_app_arguments]
  rw [scanLoop]; simp +decide [findArg, SUPPORTED_ARGS]
  rw [scanLoop]; simp +decide [finishScan, missing_args, SUPPORTED_ARGS,
    ArgumentsParsingResult.Error, AppArguments.default]

/-- Evaluation: when `-t` appears only as the value consumed by `-d`, the
re-scan check still finds it and the scan succeeds with no templates path. -/
theorem eval_dash_t_as_value : get_app_arguments ["prog", "-d", "-t"] =
    ArgumentsParsingResult.Parsed
      { templates_path := none, definitions_path := some "-t", results_root_path := none } := by
  rw [get_app_arguments]
  rw [scanLoop]; simp +decide [findArg, SUPPORTED_ARGS]
  rw [scanLoop]; simp +decide [finishScan, missing_args, SUPPORTED_ARGS,
    ArgumentsParsingResult.Parsed]

/-- Evaluation: on the same input the bookkeeping formulation reports the
templates flag as missing. -/
theorem eval_bk_dash_t_as_value : get_app_arguments_bk ["prog", "-d", "-t"] =
    ArgumentsParsingResult.Error
      "Missing required arguments: --templates-path\nUse --help to see the list of supported arguments" := by
  rw [get_app_arguments_bk]
  rw [scanLoopBk]; simp +decide [findArg, SUPPORTED_ARGS]
  rw [scanLoopBk]; simp +decide [finishScanBk, missing_args_bk, SUPPORTED_ARGS,
    ArgumentsParsingResult.Error, AppArguments.default]

/-- Evaluation: the bookkeeping formulation accepts the well-formed input with
the same configuration. -/
theorem eval_bk_full_ok : get_app_arguments_bk ["prog", "-t", "T", "-d", "D"] =
    ArgumentsParsingResult.Parsed
      { templates_path := some "T", definitions_path := some "D", results_root_path := none } := by
  rw [get_app_arguments_bk]
  rw [scanLoopBk]; simp +decide [findArg, SUPPORTED_ARGS]
  rw [scanLoopBk]; simp +decide [findArg, SUPPORTED_ARGS]
  rw [scanLoopBk]; simp +decide [finishScanBk, missing_args_bk, SUPPORTED_ARGS,
    ArgumentsParsingResult.Parsed]

/-- Evaluation: a token with no dash prefix is reported as unsupported. -/
theorem eval_unsupported_token : get_app_arguments ["prog", "oops"] =
    ArgumentsParsingResult.Error
      "Unsupported argument: oops\nUse --help to see the list of supported arguments" := by
  rw [get_app_arguments]
  rw [scanLoop]; simp +decide [findArg, starts_with, SUPPORTED_ARGS,
    ArgumentsParsingResult.Error, AppArguments.default]

/-- Concrete shape of the property-side missing-required list over the fixed
catalog. -/
theorem requiredNotSupplied_unfold (args : List String) :
    requiredNotSupplied args =
      (if args.any (fun arg => arg == "--templates-path" || arg == "-t") then []
        else ["--templates-path"]) ++
      (if args.any (fun arg => arg == "--definitions-path" || arg == "-d") then []
        else ["--definitions-path"]) := by
  cases hT : args.any (fun arg => arg == "--templates-path" || arg == "-t")
  <;> cases hD : args.any (fun arg => arg == "--definitions-path" || arg == "-d")
  <;> simp only [requiredNotSupplied, SUPPORTED_ARGS, List.filter_cons, List.filter_nil,
        Option.getD_some, Bool.and_true, Bool.and_false, Bool.not_true, Bool.not_false,
        reduceIte, hT, hD, List.map_cons, List.map_nil]
  <;> rfl

/-- The re-scan check computes exactly the property-side missing-required
list. -/
theorem missing_args_eq_requiredNotSupplied (args : List String) :
    missing_args args = requiredNotSupplied args := by
  rw [missing_args_unfold, requiredNotSupplied_unfold]

/-- A string starting with a double dash also starts with a single dash. -/
theorem starts_with_dash_of_dashdash (s : String) :
    starts_with s "--" = true → starts_with s "-" = true := by
  unfold starts_with
  intro h
  rw [List.isPrefixOf_iff_prefix] at h ⊢
  exact List.IsPrefix.trans (by decide) h

/-- C1 (counterexample): on the input `["prog", "-d", "-t"]` the scanner
returns the successful Parsed outcome (not an error, no message) even though
`templates_path` is `None` — the `-t` token was consumed as the value of `-d`,
yet the raw-input re-scan still finds it and the required check passes. -/
theorem parsed_outcome_without_required_field :
    (get_app_arguments ["prog", "-d", "-t"]).is_error = false ∧
      (get_app_arguments ["prog", "-d", "-t"]).message = none ∧
      (get_app_arguments ["prog", "-d", "-t"]).app_arguments.templates_path = none := by
  rw [eval_dash_t_as_value]
  exact ⟨rfl, rfl, rfl⟩

/-- C1 (amended): if the scanner returns the successful Parsed outcome, then
for each required definition (`--templates-path` and `--definitions-path`) its
long name or shorthand occurs somewhere in the raw token vector; the
corresponding field itself may nevertheless be `None` when that occurrence was
consumed as another flag's value. -/
theorem parsed_implies_required_token_in_raw_input (args : List String) (a : AppArguments)
    (h : get_app_arguments args = ArgumentsParsingResult.Parsed a) :
    args.any (fun arg => arg == "--templates-path" || arg == "-t") = true ∧
      args.any (fun arg => arg == "--definitions-path" || arg == "-d") = true := by
  rw [get_app_arguments] at h
  exact (missing_args_nil_iff args).mp
    (scanLoop_parsed_missing args.length args 1 none none none a (by omega) h)

/-- Witness for C1 (amended) at the input `["prog", "-t", "T", "-d", "D"]`. -/
theorem parsed_implies_required_token_in_raw_input_witness :
    (["prog", "-t", "T", "-d", "D"] : List String).any
        (fun arg => arg == "--templates-path" || arg == "-t") = true ∧
      (["prog", "-t", "T", "-d", "D"] : List String).any
        (fun arg => arg == "--definitions-path" || arg == "-d") = true :=
  parsed_implies_required_token_in_raw_input _ _ eval_full_ok

/-- C2 (counterexample): on the input `["prog", "-d", "-t"]` the re-scan
formulation parses successfully while the bookkeeping formulation reports
`--templates-path` as missing, so the two formulations are not observationally
equivalent. -/
theorem rescan_and_bookkeeping_checks_differ :
    get_app_arguments ["prog", "-d", "-t"] = ArgumentsParsingResult.Parsed
        { templates_path := none, definitions_path := some "-t", results_root_path := none } ∧
      get_app_arguments_bk ["prog", "-d", "-t"] = ArgumentsParsingResult.Error
        "Missing required arguments: --templates-path\nUse --help to see the list of supported arguments" ∧
      get_app_arguments ["prog", "-d", "-t"] ≠ get_app_arguments_bk ["prog", "-d", "-t"] :=
  ⟨eval_dash_t_as_value, eval_bk_dash_t_as_value, by
    rw [eval_dash_t_as_value, eval_bk_dash_t_as_value]
    decide⟩

/-- C2 (amended): the bookkeeping formulation refines the implemented re-scan
formulation: whenever the bookkeeping check lets an input parse successfully,
the re-scan formulation produces the identical Parsed outcome; the converse
direction fails. -/
theorem bookkeeping_parsed_implies_rescan_parsed (args : List String) (a : AppArguments)
    (h : get_app_arguments_bk args = ArgumentsParsingResult.Parsed a) :
    get_app_arguments args = ArgumentsParsingResult.Parsed a := by
  rw [get_app_arguments_bk] at h
  rw [get_app_arguments]
  exact scanLoopBk_refines args.length args 1 none none none [] a (by omega)
    (by intro hc; simp at hc) (by intro hc; simp at hc) h

/-- Witness for C2 (amended) at the input `["prog", "-t", "T", "-d", "D"]`. -/
theorem bookkeeping_parsed_implies_rescan_parsed_witness :
    get_app_arguments ["prog", "-t", "T", "-d", "D"] = ArgumentsParsingResult.Parsed
      { templates_path := some "T", definitions_path := some "D", results_root_path := none } :=
  bookkeeping_parsed_implies_rescan_parsed _ _ eval_bk_full_ok

/-- C3: whenever the scan reaches a cursor position holding `"--help"` or
`"-h"`, whatever the accumulated state and whatever tokens follow, it returns
the Message outcome carrying the full help text at once, without performing the
required-argument check. -/
theorem help_flag_short_circuits (args : List String) (i : Nat) (tp dp rp : Option String)
    (h : args.get? i = some "--help" ∨ args.get? i = some "-h") :
    scanLoop args i tp dp rp = ArgumentsParsingResult.Message get_help_text := by
  rcases h with h | h
  · obtain ⟨hlt, hget⟩ := List.get?_eq_some.mp h
    exact scanLoop_help args i tp dp rp hlt (Or.inl hget)
  · obtain ⟨hlt, hget⟩ := List.get?_eq_some.mp h
    exact scanLoop_help args i tp dp rp hlt (Or.inr hget)

/-- Witness for C3: help at position 1 followed by malformed tokens. -/
theorem help_flag_short_circuits_witness :
    scanLoop ["prog", "--help", "---bad", "-t"] 1 none none none =
      ArgumentsParsingResult.Message get_help_text :=
  help_flag_short_circuits _ 1 none none none (Or.inl (by decide))

/-- C4: when the scan completes without short-circuiting and at least one
required flag never appeared, the scanner returns an Error outcome whose
message lists every missing required flag's long name, comma-separated, in
catalog order. -/
theorem missing_required_error_lists_all_names (args : List String) (i : Nat) (tp dp rp : Option String)
    (hdone : args.length ≤ i) (hmiss : requiredNotSupplied args ≠ []) :
    scanLoop args i tp dp rp = ArgumentsParsingResult.Error
      ("Missing required arguments: "
        ++ String.intercalate ", " (requiredNotSupplied args)
        ++ "\nUse --help to see the list of supported arguments") := by
  rw [scanLoop_base args i tp dp rp hdone]
  simp only [finishScan, missing_args_eq_requiredNotSupplied]
  rw [if_pos (List.length_pos.mpr hmiss)]

/-- Witness for C4 at the input `["prog"]`, where both required names are
listed. -/
theorem missing_required_error_lists_all_names_witness :
    scanLoop ["prog"] 1 none none none = ArgumentsParsingResult.Error
      ("Missing required arguments: "
        ++ String.intercalate ", " (requiredNotSupplied ["prog"])
        ++ "\nUse --help to see the list of supported arguments") :=
  missing_required_error_lists_all_names ["prog"] 1 none none none (by decide) (by decide)

/-- C5: a recognized arity-one flag token (`--templates-path`, `-t`,
`--definitions-path`, `-d`, `--results-root-path`, `-r`) reached by the scan as
the last token, with nothing following it, produces the
not-enough-arguments Error naming that token. -/
theorem arity_one_flag_as_last_token_errors (args : List String) (i : Nat) (tp dp rp : Option String) (s : String)
    (hget : args.get? i = some s) (hlast : i + 1 = args.length)
    (hs : s ∈ (["--templates-path", "-t", "--definitions-path", "-d",
      "--results-root-path", "-r"] : List String)) :
    scanLoop args i tp dp rp = ArgumentsParsingResult.Error
      ("Not enough arguments for " ++ s
        ++ "\nUse --help to see the list of supported arguments") := by
  obtain ⟨hlt, hgeteq⟩ := List.get?_eq_some.mp hget
  subst hgeteq
  simp only [List.mem_cons, List.not_mem_nil, or_false] at hs
  rcases hs with h | h | h | h | h | h
  · exact scanLoop_not_enough args i tp dp rp
      ⟨"--templates-path", "--templates-path <path>", some "-t",
        "Set path to the templates directory", 1, true⟩ hlt
      (by rw [h]; decide) ⟨Nat.one_pos, le_of_eq hlast.symm⟩
  · exact scanLoop_not_enough args i tp dp rp
      ⟨"--templates-path", "--templates-path <path>", some "-t",
        "Set path to the templates directory", 1, true⟩ hlt
      (by rw [h]; decide) ⟨Nat.one_pos, le_of_eq hlast.symm⟩
  · exact scanLoop_not_enough args i tp dp rp
      ⟨"--definitions-path", "--definitions-path <path>", some "-d",
        "Set path to the directory with definitions", 1, true⟩ hlt
      (by rw [h]; decide) ⟨Nat.one_pos, le_of_eq hlast.symm⟩
  · exact scanLoop_not_enough args i tp dp rp
      ⟨"--definitions-path", "--definitions-path <path>", some "-d",
        "Set path to the directory with definitions", 1, true⟩ hlt
      (by rw [h]; decide) ⟨Nat.one_pos, le_of_eq hlast.symm⟩
  · exact scanLoop_not_enough args i tp dp rp
      ⟨"--results-root-path", "--results-root-path <path>", some "-r",
        "Set root directory for results, default is the current directory", 1, false⟩ hlt
      (by rw [h]; decide) ⟨Nat.one_pos, le_of_eq hlast.symm⟩
  · exact scanLoop_not_enough args i tp dp rp
      ⟨"--results-root-path", "--results-root-path <path>", some "-r",
        "Set root directory for results, default is the current directory", 1, false⟩ hlt
      (by rw [h]; decide) ⟨Nat.one_pos, le_of_eq hlast.symm⟩

/-- Witness for C5 at the input `["prog", "-t"]`. -/
theorem arity_one_flag_as_last_token_errors_witness :
    scanLoop ["prog", "-t"] 1 none none none = ArgumentsParsingResult.Error
      ("Not enough arguments for " ++ "-t"
        ++ "\nUse --help to see the list of supported arguments") :=
  arity_one_flag_as_last_token_errors ["prog", "-t"] 1 none none none "-t" (by decide) (by decide) (by decide)

/-- C6: a token reached at a flag position that matches no catalog entry — a
double-dash token equal to no long name, a single-dash token equal to no
shorthand, or a token with no dash prefix — always yields the
unsupported-argument Error naming that exact token, never silent skipping. -/
theorem unmatched_token_is_unsupported_error (args : List String) (i : Nat) (tp dp rp : Option String) (s : String)
    (hget : args.get? i = some s)
    (hu : (starts_with s "--" = true ∧ ∀ d ∈ SUPPORTED_ARGS, d.name ≠ s)
        ∨ (starts_with s "-" = true ∧ starts_with s "--" = false ∧
            ∀ d ∈ SUPPORTED_ARGS, d.shorthand ≠ some s)
        ∨ starts_with s "-" = false) :
    scanLoop args i tp dp rp = ArgumentsParsingResult.Error
      ("Unsupported argument: " ++ s
        ++ "\nUse --help to see the list of supported arguments") := by
  obtain ⟨hlt, hgeteq⟩ := List.get?_eq_some.mp hget
  subst hgeteq
  apply scanLoop_unsupported args i tp dp rp hlt
  unfold findArg
  rcases hu with ⟨h1, h2⟩ | ⟨h1, h2, h3⟩ | h1
  · rw [if_pos h1]
    exact List.find?_eq_none.mpr (fun d hd => by simpa using h2 d hd)
  · rw [if_neg (by rw [h2]; decide), if_pos h1]
    exact List.find?_eq_none.mpr (fun d hd => by simpa using h3 d hd)
  · have h2 : starts_with (args.get ⟨i, hlt⟩) "--" = false := by
      cases hdd : starts_with (args.get ⟨i, hlt⟩) "--"
      · rfl
      · exact absurd (starts_with_dash_of_dashdash _ hdd) (by rw [h1]; decide)
    rw [if_neg (by rw [h2]; decide), if_neg (by rw [h1]; decide)]

/-- Witness for C6 at the unrecognized token `"--bogus"`. -/
theorem unmatched_token_is_unsupported_error_witness :
    scanLoop ["prog", "--bogus"] 1 none none none = ArgumentsParsingResult.Error
      ("Unsupported argument: " ++ "--bogus"
        ++ "\nUse --help to see the list of supported arguments") :=
  unmatched_token_is_unsupported_error ["prog", "--bogus"] 1 none none none "--bogus" (by decide)
    (Or.inl ⟨by decide, by decide⟩)

/-- C7: whenever the scanner returns an error outcome, the accompanying
configuration carries no data: all three fields are `None`, even if value
tokens had been recorded before the failure point. -/
theorem error_outcome_carries_no_configuration (args : List String)
    (h : (get_app_arguments args).is_error = true) :
    (get_app_arguments args).app_arguments.templates_path = none ∧
      (get_app_arguments args).app_arguments.definitions_path = none ∧
      (get_app_arguments args).app_arguments.results_root_path = none := by
  rw [get_app_arguments] at h ⊢
  rw [scanLoop_error_default args.length args 1 none none none (by omega) h]
  exact ⟨rfl, rfl, rfl⟩

/-- Witness for C7 at the erroring input `["prog", "oops"]`. -/
theorem error_outcome_carries_no_configuration_witness :
    (get_app_arguments ["prog", "oops"]).app_arguments.templates_path = none ∧
      (get_app_arguments ["prog", "oops"]).app_arguments.definitions_path = none ∧
      (get_app_arguments ["prog", "oops"]).app_arguments.results_root_path = none :=
  error_outcome_carries_no_configuration ["prog", "oops"] (by rw [eval_unsupported_token]; rfl)

/-- C8: the concrete Instantiation B scenarios: `["prog", "-t", "T", "-d",
"D"]` parses with the two paths set and no results root, and
`["prog", "-t", "T"]` errors naming `--definitions-path` as missing. -/
theorem instantiation_b_concrete_scenarios :
    get_app_arguments ["prog", "-t", "T", "-d", "D"] = ArgumentsParsingResult.Parsed
        { templates_path := some "T", definitions_path := some "D",
          results_root_path := none } ∧
      get_app_arguments ["prog", "-t", "T"] = ArgumentsParsingResult.Error
        "Missing required arguments: --definitions-path\nUse --help to see the list of supported arguments" :=
  ⟨eval_full_ok, eval_only_templates⟩

set_option maxRecDepth 8000 in
/-- C9: the help text is exactly the header line, one line per catalog entry in
order — syntax, padding to the longest syntax length plus one, description —
then a blank line and the usage example line; every syntax column is padded to
the same width. -/
theorem help_text_structure :
    get_help_text = "Supported arguments:\n" ++ String.join (SUPPORTED_ARGS.map help_line)
        ++ "\n"
        ++ "Example: recoder --config-path C:\\config.json --logs-path C:\\logs --work-path C:\\work --env VAR1 value1 --env VAR2 value2" ∧
      (SUPPORTED_ARGS.all fun d => (d.stx ++ help_pad d).length == longest_stx_len + 1) = true := by
  constructor
  · rfl
  · decide

/-- C10: the empty invocation (program name only) is reported solely through
the missing-required check, listing both required long names; there is no
separate no-arguments branch. -/
theorem empty_invocation_reports_missing_required :
    get_app_arguments ["prog"] = ArgumentsParsingResult.Error
      "Missing required arguments: --templates-path, --definitions-path\nUse --help to see the list of supported arguments" := by
  rw [get_app_arguments]
  rw [scanLoop]
  simp +decide [finishScan, missing_args, SUPPORTED_ARGS,
    ArgumentsParsingResult.Error, AppArguments.default]
